import Mathlib

/-!
# fbbatch — batching coordinator and dispatcher, shallow embedding

This development embeds the batching client of package `fbbatch`
(file `fbbatch/fbbatch.go`) together with the pieces of package `fbapi`
it relies on, and proves properties of the embedded definitions.

Embedding conventions:
* Go strings become `String`, Go ints become `Nat` where the source only
  ever holds non-negative values (HTTP status codes, sizes, ids).
* The composite network call — `fbapi.Client.Do` invoked by `BatchDo`
  with a pointer to a response slice — is modelled as a function from the
  `Batch` to `Except Err (List Response)`.  On the success path
  `json.NewDecoder(res.Body).Decode(result)` resets the pre-allocated
  slice and fills it with exactly the decoded JSON array, so the list the
  transport yields is the list `BatchDo` returns: its length is the
  length of the decoded array, whatever the remote endpoint sent.
* A channel write `rr.Response <- v` is recorded positionally: the
  dispatcher's outcome carries, for each member of the batch, the list of
  values written to that member's result channel.
* The worker goroutine's `select` loop is embedded as a step function on
  its local state driven by events: a timer expiry, a work item arriving,
  or the intake channel being closed.  A `nil` timer channel never
  delivers, so a timer event hitting a disarmed state is a no-op.
-/

namespace FBBatch

/-- Errors that flow through the embedded client.  `notStarted` is
`errNotStarted` (`fbbatch: client not started`); `transport` stands for an
error returned by the composite call. -/
inductive Err
  | notStarted
  | transport (msg : String)
deriving DecidableEq, Repr

/-- Structure `Request` in a Batch (fields `Name`, `Method`, `RelativeURL`, `Body`). -/
structure Request where
  name : String
  method : String
  relativeURL : String
  body : String
deriving DecidableEq, Repr

/-- Structure `Header` in a Batch Response. -/
structure Header where
  name : String
  value : String
deriving DecidableEq, Repr

/-- Structure `Response` in a Batch (fields `Code`, `Header`, `Body`). -/
structure Response where
  code : Nat
  header : List Header
  body : String
deriving DecidableEq, Repr

/-- Structure `Batch` of Requests (fields `AccessToken`, `AppID`, `Request`). -/
structure Batch where
  accessToken : String
  appID : Nat
  request : List Request
deriving DecidableEq, Repr

/-- Struct `workResponse`: the struct sent back on a pending call's channel.
`send` sets exactly one of the two fields. -/
structure workResponse where
  response : Option Response
  error : Option Err
deriving DecidableEq, Repr

/-- A successful `workResponse` as written by `send` when the composite
call succeeded: `workResponse becomes Response: res[i]`. -/
def workResponse.ok (r : Response) : workResponse :=
  { response := some r, error := none }

/-- A failed `workResponse` as written by `send` when the composite call
errored: `workResponse becomes Error: err`. -/
def workResponse.fail (e : Err) : workResponse :=
  { response := none, error := some e }

/-- Struct `workRequest`: a batch member.  Its result channel is identified
positionally by its index in the batch, so only the `Request` is kept. -/
structure workRequest where
  request : Request
deriving DecidableEq, Repr

/-- The composite transport call: `fbapi.Client.Do` on the POST built by
`BatchDo`, decoding the body into the response slice.  Success carries the
decoded JSON array — of whatever length the endpoint returned. -/
abbrev Transport := Batch → Except Err (List Response)

/-- Function `BatchDo` performs a Batch call.  The url values (`access_token`,
`batch_app_id`, marshalled `batch`) and the POST request are built from
the `Batch` alone and handed to the transport once; `json` decoding on
success replaces the pre-allocated `make` slice with the decoded array,
so the result is exactly what the transport yields. -/
def BatchDo (t : Transport) (b : Batch) : Except Err (List Response) :=
  t b

/-- The delivery loop of `send` on the success path: `for i, rr in rrs`
write `res[i]` to `rr`'s channel.  Indexing is in lockstep; if `res` runs
out first, `res[i]` panics: members already visited keep their single
write, the remaining members get none, and the flag records the panic. -/
def deliverLoop : List workRequest → List Response → List (List workResponse) × Bool
  | [], _ => ([], false)
  | _ :: rs, [] => (List.replicate (rs.length + 1) [], true)
  | _ :: rs, r :: res =>
    let p := deliverLoop rs res
    ([workResponse.ok r] :: p.1, p.2)

/-- Outcome of one `Client.send` invocation: the `Batch` handed to
`BatchDo`, the values written to each member's result channel (aligned
with the input list), and whether the delivery loop panicked on an
out-of-range index. -/
structure SendResult where
  composite : Batch
  writes : List (List workResponse)
  panicked : Bool
deriving DecidableEq, Repr

/-- Method `Client.send`: builds the composite `Batch` with `b.Request[i]`
set to `rrs[i].Request`, performs `BatchDo` once, then loops over the
members writing either `res[i]` or the shared error to each channel. -/
def send (t : Transport) (accessToken : String) (appID : Nat)
    (rrs : List workRequest) : SendResult :=
  let b : Batch :=
    { accessToken := accessToken, appID := appID
      request := rrs.map (fun r => r.request) }
  match BatchDo t b with
  | Except.error e =>
    { composite := b
      writes := rrs.map (fun _ => [workResponse.fail e])
      panicked := false }
  | Except.ok res =>
    let p := deliverLoop rrs res
    { composite := b, writes := p.1, panicked := p.2 }

/-- Local state of the `worker` goroutine: the accumulator `batch` and the
timer channel `batchTimeout`.  `timerArmed` is whether the channel is
non-nil; `armCount` counts how many times `time.After` was invoked, i.e.
how often the timer was armed (it is armed only when the channel is nil,
hence only by the first work item since the last flush). -/
structure WorkerState where
  batch : List workRequest
  timerArmed : Bool
  armCount : Nat
deriving DecidableEq, Repr

/-- The worker's state at `go c.worker()`: both locals start zeroed. -/
def workerInit : WorkerState :=
  { batch := [], timerArmed := false, armCount := 0 }

/-- An event the worker's `select` can wake up on. -/
inductive WorkerEvent
  | timer
  | work (rr : workRequest)
  | closed
deriving DecidableEq, Repr

/-- Result of one iteration of the worker loop: the new local state, the
batch handed to `send` if this iteration flushed, and whether the loop
returned (only on a closed intake). -/
structure StepResult where
  state : WorkerState
  flush : Option (List workRequest)
  terminated : Bool
deriving DecidableEq, Repr

/-- One iteration of the `worker` select loop.
* timer expiry: dispatch the accumulator (`go c.send(batch)`), reset
  `batch` and the timer channel to nil.  A disarmed timer channel is nil
  and never delivers, so that case leaves the state untouched.
* work item: append it; arm the timer if the channel is nil; if the
  accumulator reached `MaxBatchSize`, dispatch it and reset batch and
  timer.
* closed intake: dispatch the accumulator synchronously and return. -/
def workerStep (maxBatchSize : Nat) (s : WorkerState) :
    WorkerEvent → StepResult
  | WorkerEvent.timer =>
    if s.timerArmed then
      { state := { batch := [], timerArmed := false, armCount := s.armCount }
        flush := some s.batch
        terminated := false }
    else
      { state := s, flush := none, terminated := false }
  | WorkerEvent.work rr =>
    let batch := s.batch ++ [rr]
    let armCount := if s.timerArmed then s.armCount else s.armCount + 1
    if maxBatchSize ≤ batch.length then
      { state := { batch := [], timerArmed := false, armCount := armCount }
        flush := some batch
        terminated := false }
    else
      { state := { batch := batch, timerArmed := true, armCount := armCount }
        flush := none
        terminated := false }
  | WorkerEvent.closed =>
    { state := s, flush := some s.batch, terminated := true }

/-- Result of running the worker over a list of events: final local
state, the flushed batches in dispatch order, and whether the loop
returned before exhausting the events. -/
structure RunResult where
  state : WorkerState
  flushes : List (List workRequest)
  terminated : Bool
deriving DecidableEq, Repr

/-- Run the worker loop over a sequence of events, collecting the
batches it hands to `send`; stops at the first `closed` event. -/
def workerRun (maxBatchSize : Nat) (s : WorkerState) :
    List WorkerEvent → RunResult
  | [] => { state := s, flushes := [], terminated := false }
  | e :: es =>
    let st := workerStep maxBatchSize s e
    if st.terminated then
      { state := st.state, flushes := st.flush.toList, terminated := true }
    else
      let rest := workerRun maxBatchSize st.state es
      { state := rest.state
        flushes := st.flush.toList ++ rest.flushes
        terminated := rest.terminated }

/-- The `c.work` intake channel as `Client.Do` can observe it: `unset`
is the nil field of a client never started, `openCh` the channel made by
`Start`, `closedCh` the channel after `Stop` ran `close(c.work)`. -/
inductive ChanState
  | unset
  | openCh
  | closedCh
deriving DecidableEq, Repr

/-- How `Client.Do` terminates, seen from the caller. -/
inductive DoOutcome
  | notStartedErr
  | panicked
  | accepted
deriving DecidableEq, Repr

/-- The intake path of `Client.Do`: a nil `c.work` returns
`errNotStarted` before anything else; a send on a closed channel panics
(Go channel semantics); an open channel accepts the work item. -/
def doIntakeOutcome : ChanState → DoOutcome
  | ChanState.unset => DoOutcome.notStartedErr
  | ChanState.closedCh => DoOutcome.panicked
  | ChanState.openCh => DoOutcome.accepted

/-- The events `Client.Do` delivers to the worker: nothing when it
returns `errNotStarted` (nil channel) or panics (closed channel); one
work item when the intake is open. -/
def doSubmitEvents : ChanState → Request → List WorkerEvent
  | ChanState.unset, _ => []
  | ChanState.closedCh, _ => []
  | ChanState.openCh, r => [WorkerEvent.work { request := r }]

/-- The fields of `Client` that `Start` touches, plus counters for its
effects: `workChan` holds the identity of the current intake channel
(`none` = nil), `nextChan` numbers the channels `make` has produced, and
`workersSpawned` counts the `go c.worker()` invocations. -/
structure ClientLife where
  batchTimeout : Nat
  maxBatchSize : Nat
  workChan : Option Nat
  nextChan : Nat
  workersSpawned : Nat
deriving DecidableEq, Repr

/-- Method `Client.Start` of the current client: default the zero-valued
configuration fields, unconditionally make a fresh `c.work` channel and
spawn a new worker goroutine, and return nil.  There is no once-guard. -/
def clientStart (defaultBatchTimeout defaultMaxBatchSize : Nat)
    (c : ClientLife) : ClientLife :=
  { batchTimeout :=
      if c.batchTimeout = 0 then defaultBatchTimeout else c.batchTimeout
    maxBatchSize :=
      if c.maxBatchSize = 0 then defaultMaxBatchSize else c.maxBatchSize
    workChan := some c.nextChan
    nextChan := c.nextChan + 1
    workersSpawned := c.workersSpawned + 1 }

/-- The once-guarded state of the muster-based variant's `Client`:
`startOnce`, `startErr` and the number of initializations performed. -/
structure OnceClient where
  started : Bool
  startErr : Option Err
  inits : Nat
deriving DecidableEq, Repr

/-- The muster-based variant's `Client.start`: `c.startOnce.Do` runs the
initialization body at most once, records its outcome in `c.startErr`,
and every call returns that shared outcome.  `initResult` is the outcome
the body would produce if it ran now (`c.muster.Start()`). -/
def onceStart (initResult : Option Err) (c : OnceClient) :
    OnceClient × Option Err :=
  if c.started then (c, c.startErr)
  else
    ({ started := true, startErr := initResult, inits := c.inits + 1 },
      initResult)

/-! ## Sample values used by witnesses and counterexamples -/

/-- A sample sub-request. -/
def req0 : Request :=
  { name := "", method := "GET", relativeURL := "/me", body := "" }

/-- A second, distinguishable sample sub-request. -/
def req1 : Request :=
  { name := "b", method := "GET", relativeURL := "/me/friends", body := "" }

/-- A sample sub-response. -/
def resp0 : Response := { code := 200, header := [], body := "first" }

/-- A second, distinguishable sample sub-response. -/
def resp1 : Response := { code := 404, header := [], body := "second" }

/-- A sample batch member. -/
def wr0 : workRequest := { request := req0 }

/-- A second sample batch member. -/
def wr1 : workRequest := { request := req1 }

/-! ## Helper lemmas about the dispatcher -/

/-- When the composite result has one entry per remaining member, the
delivery loop writes `res[i]` to member `i` and does not panic. -/
theorem deliverLoop_of_le (rrs : List workRequest) (res : List Response)
    (h : rrs.length ≤ res.length) :
    deliverLoop rrs res =
      ((res.take rrs.length).map (fun r => [workResponse.ok r]), false) := by
  induction rrs generalizing res with
  | nil => simp [deliverLoop]
  | cons x rs ih =>
    cases res with
    | nil => simp at h
    | cons r res' =>
      simp only [List.length_cons, Nat.add_le_add_iff_right] at h
      simp [deliverLoop, ih res' h]

/-- On a transport error, `send` writes the identical error to every
member's channel. -/
theorem send_writes_of_error (t : Transport) (ac : String) (app : Nat)
    (rrs : List workRequest) (e : Err)
    (h : t { accessToken := ac, appID := app
             request := rrs.map (fun r => r.request) } = Except.error e) :
    (send t ac app rrs).writes = rrs.map (fun _ => [workResponse.fail e]) ∧
    (send t ac app rrs).panicked = false := by
  simp only [send, BatchDo, h]
  exact ⟨trivial, trivial⟩

/-- On transport success with at least one entry per member, `send`
writes `res[i]` to member `i` and does not panic. -/
theorem send_writes_of_ok (t : Transport) (ac : String) (app : Nat)
    (rrs : List workRequest) (res : List Response)
    (h : t { accessToken := ac, appID := app
             request := rrs.map (fun r => r.request) } = Except.ok res)
    (hlen : rrs.length ≤ res.length) :
    (send t ac app rrs).writes =
      (res.take rrs.length).map (fun r => [workResponse.ok r]) ∧
    (send t ac app rrs).panicked = false := by
  simp only [send, BatchDo, h]
  have hd := deliverLoop_of_le rrs res hlen
  simp [hd]

/-- Under a transport that honors the length contract on success, every
member's channel receives exactly one value. -/
theorem send_one_write_each (t : Transport) (ac : String) (app : Nat)
    (rrs : List workRequest)
    (h : ∀ res, t { accessToken := ac, appID := app
                    request := rrs.map (fun r => r.request) } = Except.ok res →
          rrs.length ≤ res.length) :
    (send t ac app rrs).writes.length = rrs.length ∧
    (send t ac app rrs).writes.all (fun w => w.length == 1) = true := by
  cases hcall : t { accessToken := ac, appID := app
                    request := rrs.map (fun r => r.request) } with
  | error e =>
    have := send_writes_of_error t ac app rrs e hcall
    rw [this.1]
    constructor
    · simp
    · simp [List.all_eq_true]
  | ok res =>
    have hlen := h res hcall
    have := send_writes_of_ok t ac app rrs res hcall hlen
    rw [this.1]
    constructor
    · simp [List.length_take, Nat.min_eq_left hlen]
    · simp only [List.all_eq_true, beq_iff_eq]
      intro w hw
      rcases List.mem_map.1 hw with ⟨r, _, rfl⟩
      rfl

/-- In both branches of `send`, the composite batch handed to `BatchDo`
carries the members' sub-requests in submission order. -/
theorem send_composite (t : Transport) (ac : String) (app : Nat)
    (rrs : List workRequest) :
    (send t ac app rrs).composite =
      { accessToken := ac, appID := app
        request := rrs.map (fun r => r.request) } := by
  simp only [send, BatchDo]
  split <;> rfl

/-- From an armed state, work items that keep the accumulator strictly
below the size bound do not flush, and the following timer expiry flushes
them all as one batch, disarming the timer. -/
theorem workerRun_work_then_timer (maxBatchSize k : Nat)
    (acc rrs : List workRequest)
    (h : acc.length + rrs.length < maxBatchSize) :
    workerRun maxBatchSize { batch := acc, timerArmed := true, armCount := k }
        (rrs.map WorkerEvent.work ++ [WorkerEvent.timer]) =
      { state := { batch := [], timerArmed := false, armCount := k }
        flushes := [acc ++ rrs]
        terminated := false } := by
  induction rrs generalizing acc with
  | nil => simp [workerRun, workerStep]
  | cons rr rest ih =>
    simp only [List.length_cons] at h
    have hcond : ¬ maxBatchSize ≤ (acc ++ [rr]).length := by
      simp only [List.length_append, List.length_cons, List.length_nil]
      omega
    have h' : (acc ++ [rr]).length + rest.length < maxBatchSize := by
      simp only [List.length_append, List.length_cons, List.length_nil]
      omega
    have hrec := ih (acc ++ [rr]) h'
    simp only [List.map_cons, List.cons_append, workerRun, workerStep,
      if_neg hcond, if_true]
    simp only [workerRun, workerStep] at hrec
    simp [hrec]

/-- Shared-outcome property of the once-guard in the muster variant: a
second start call performs no new initialization and returns the first
call's outcome, whatever initialization result the body would now give. -/
theorem onceStart_shared_outcome (r r' : Option Err) (c : OnceClient)
    (h : c.started = false) :
    onceStart r' (onceStart r c).1 = ((onceStart r c).1, r) := by
  simp [onceStart, h]

/-! ## Claims -/

/-- C1 counterexample: the claim promises exactly one write to every
result channel regardless of the composite call's outcome, but when the
composite call succeeds while the decoded array is shorter than the
batch, the delivery loop panics on `res[i]` and the starved member's
channel receives zero values. -/
theorem send_starves_channel_cex :
    (send (fun _ => Except.ok []) "tok" 7 [wr0]).writes = [[]] ∧
    (send (fun _ => Except.ok []) "tok" 7 [wr0]).panicked = true := by
  decide

/-- C1 (amended): if the composite call errors, or succeeds with at
least one sub-response per member, then every member's result channel
receives exactly one value — never zero, never more than one. -/
theorem send_exactly_one_result (t : Transport) (ac : String) (app : Nat)
    (rrs : List workRequest)
    (h : ∀ res, t { accessToken := ac, appID := app
                    request := rrs.map (fun r => r.request) } = Except.ok res →
          rrs.length ≤ res.length) :
    (send t ac app rrs).writes.length = rrs.length ∧
    (send t ac app rrs).writes.all (fun w => w.length == 1) = true :=
  send_one_write_each t ac app rrs h

/-- C1 witness: a two-member batch against a transport answering with
two sub-responses; both channels receive exactly one value. -/
theorem send_exactly_one_result_witness :
    (send (fun _ => Except.ok [resp0, resp1]) "tok" 7 [wr0, wr1]).writes.length = 2 ∧
    (send (fun _ => Except.ok [resp0, resp1]) "tok" 7 [wr0, wr1]).writes.all
      (fun w => w.length == 1) = true :=
  send_exactly_one_result (fun _ => Except.ok [resp0, resp1]) "tok" 7 [wr0, wr1]
    (fun res hres => by injection hres with h; rw [← h]; decide)

/-- C2: when the composite call succeeds with one sub-response per
member, the composite sub-request list preserves submission order and
sub-response i is written to exactly the i-th member's channel. -/
theorem send_positional_delivery (t : Transport) (ac : String) (app : Nat)
    (rrs : List workRequest) (res : List Response)
    (hok : t { accessToken := ac, appID := app
               request := rrs.map (fun r => r.request) } = Except.ok res)
    (hlen : res.length = rrs.length) :
    (send t ac app rrs).composite.request = rrs.map (fun r => r.request) ∧
    (send t ac app rrs).writes = res.map (fun r => [workResponse.ok r]) := by
  constructor
  · rw [send_composite]
  · have hw := (send_writes_of_ok t ac app rrs res hok (le_of_eq hlen.symm)).1
    rw [hw, ← hlen, List.take_length]

/-- C2 witness: two distinguishable members and two distinguishable
sub-responses; delivery is strictly positional. -/
theorem send_positional_delivery_witness :
    (send (fun _ => Except.ok [resp0, resp1]) "w" 9 [wr0, wr1]).composite.request =
      [req0, req1] ∧
    (send (fun _ => Except.ok [resp0, resp1]) "w" 9 [wr0, wr1]).writes =
      [[workResponse.ok resp0], [workResponse.ok resp1]] :=
  send_positional_delivery (fun _ => Except.ok [resp0, resp1]) "w" 9
    [wr0, wr1] [resp0, resp1] rfl rfl

/-- C3: when the composite call itself errors, the identical error value
is written to every member's channel, and no member receives a success
response. -/
theorem send_error_broadcast (t : Transport) (ac : String) (app : Nat)
    (rrs : List workRequest) (e : Err)
    (h : t { accessToken := ac, appID := app
             request := rrs.map (fun r => r.request) } = Except.error e) :
    (send t ac app rrs).writes = rrs.map (fun _ => [workResponse.fail e]) :=
  (send_writes_of_error t ac app rrs e h).1

/-- C3 witness: a failing transport; both members of a two-member batch
receive exactly the identical error and nothing else. -/
theorem send_error_broadcast_witness :
    (send (fun _ => Except.error (Err.transport "down")) "tok" 3 [wr0, wr1]).writes =
      [[workResponse.fail (Err.transport "down")],
        [workResponse.fail (Err.transport "down")]] :=
  send_error_broadcast (fun _ => Except.error (Err.transport "down")) "tok" 3
    [wr0, wr1] (Err.transport "down") rfl

/-- C4: a work item that brings the accumulator to the configured
maximum batch size flushes it immediately as one batch, resets the
accumulator to empty and disarms the timer. -/
theorem worker_size_flush (maxBatchSize : Nat) (s : WorkerState)
    (rr : workRequest) (h : s.batch.length + 1 = maxBatchSize) :
    workerStep maxBatchSize s (WorkerEvent.work rr) =
      { state := { batch := [], timerArmed := false
                   armCount := if s.timerArmed then s.armCount else s.armCount + 1 }
        flush := some (s.batch ++ [rr])
        terminated := false } := by
  have hcond : maxBatchSize ≤ s.batch.length + 1 := le_of_eq h.symm
  simp [workerStep, hcond]

/-- C4 witness: with a maximum of 2, a second work item triggers an
immediate flush of both items and disarms the timer. -/
theorem worker_size_flush_witness :
    workerStep 2 { batch := [wr0], timerArmed := true, armCount := 1 }
        (WorkerEvent.work wr1) =
      { state := { batch := [], timerArmed := false, armCount := 1 }
        flush := some [wr0, wr1]
        terminated := false } :=
  worker_size_flush 2 { batch := [wr0], timerArmed := true, armCount := 1 } wr1 rfl

/-- C5: for a non-empty run of N work items with N below the maximum
batch size and no intervening trigger, the first item since the last
flush arms the window timer (exactly one arming), no size flush occurs,
and the timer expiry flushes all N items as one batch whose composite
sub-request list has exactly the N sub-requests in submission order. -/
theorem worker_window_flush (maxBatchSize : Nat) (t : Transport)
    (ac : String) (app : Nat) (rrs : List workRequest)
    (hne : rrs ≠ []) (hlt : rrs.length < maxBatchSize) :
    (workerRun maxBatchSize workerInit
        ((rrs.take 1).map WorkerEvent.work)).state.timerArmed = true ∧
    (workerRun maxBatchSize workerInit
        ((rrs.take 1).map WorkerEvent.work)).state.armCount = 1 ∧
    workerRun maxBatchSize workerInit
        (rrs.map WorkerEvent.work ++ [WorkerEvent.timer]) =
      { state := { batch := [], timerArmed := false, armCount := 1 }
        flushes := [rrs]
        terminated := false } ∧
    (send t ac app rrs).composite.request = rrs.map (fun r => r.request) := by
  cases rrs with
  | nil => exact absurd rfl hne
  | cons r rest =>
    simp only [List.length_cons] at hlt
    have hone : ¬ maxBatchSize ≤ ([] ++ [r] : List workRequest).length := by
      simp only [List.nil_append, List.length_cons, List.length_nil]
      omega
    have hfirst :
        workerStep maxBatchSize workerInit (WorkerEvent.work r) =
          { state := { batch := [r], timerArmed := true, armCount := 1 }
            flush := none
            terminated := false } := by
      simp only [workerStep, workerInit]
      rw [if_neg (by simpa using hone)]
      rfl
    refine ⟨?_, ?_, ?_, ?_⟩
    · simp [workerRun, hfirst]
    · simp [workerRun, hfirst]
    · have hrest := workerRun_work_then_timer maxBatchSize 1 [r] rest
        (by simp only [List.length_cons, List.length_nil]; omega)
      simp only [List.map_cons, List.cons_append, workerRun, hfirst]
      simp [hrest]
    · rw [send_composite]

/-- C5 witness: two work items with a maximum of 3; the first item arms
the timer once, the expiry flushes both in submission order. -/
theorem worker_window_flush_witness :
    (workerRun 3 workerInit
        (([wr0, wr1].take 1).map WorkerEvent.work)).state.timerArmed = true ∧
    (workerRun 3 workerInit
        (([wr0, wr1].take 1).map WorkerEvent.work)).state.armCount = 1 ∧
    workerRun 3 workerInit
        ([wr0, wr1].map WorkerEvent.work ++ [WorkerEvent.timer]) =
      { state := { batch := [], timerArmed := false, armCount := 1 }
        flushes := [[wr0, wr1]]
        terminated := false } ∧
    (send (fun _ => Except.ok []) "x" 1 [wr0, wr1]).composite.request =
      [req0, req1] :=
  worker_window_flush 3 (fun _ => Except.ok []) "x" 1 [wr0, wr1]
    (by decide) (by decide)

/-- C6 counterexample: after `Stop` the intake channel is closed but not
nil, so a further `Do` does not fail with the not-started error: the
channel send panics. -/
theorem post_stop_submit_panics :
    doIntakeOutcome ChanState.closedCh = DoOutcome.panicked ∧
    doIntakeOutcome ChanState.closedCh ≠ DoOutcome.notStartedErr := by
  decide

/-- C6 (amended): closing the intake makes the worker flush every still
queued call as one final batch and terminate, and (under a transport
honoring the length contract) each of those calls' channels receives
exactly one value; but a Submit after Stop panics on the closed intake
instead of failing with an error. -/
theorem stop_drains_final_batch (maxBatchSize : Nat) (t : Transport)
    (ac : String) (app : Nat) (s : WorkerState)
    (h : ∀ res, t { accessToken := ac, appID := app
                    request := s.batch.map (fun r => r.request) } = Except.ok res →
          s.batch.length ≤ res.length) :
    (workerRun maxBatchSize s [WorkerEvent.closed]).flushes = [s.batch] ∧
    (workerRun maxBatchSize s [WorkerEvent.closed]).terminated = true ∧
    (send t ac app s.batch).writes.length = s.batch.length ∧
    (send t ac app s.batch).writes.all (fun w => w.length == 1) = true ∧
    doIntakeOutcome ChanState.closedCh = DoOutcome.panicked := by
  refine ⟨by simp [workerRun, workerStep], by simp [workerRun, workerStep],
    (send_one_write_each t ac app s.batch h).1,
    (send_one_write_each t ac app s.batch h).2, rfl⟩

/-- C6 witness: one queued call and a failing transport; the close flush
hands it to one dispatch and its channel receives exactly one value. -/
theorem stop_drains_final_batch_witness :
    (workerRun 50 { batch := [wr0], timerArmed := true, armCount := 1 }
        [WorkerEvent.closed]).flushes = [[wr0]] ∧
    (workerRun 50 { batch := [wr0], timerArmed := true, armCount := 1 }
        [WorkerEvent.closed]).terminated = true ∧
    (send (fun _ => Except.error (Err.transport "down")) "tok" 0 [wr0]).writes.length = 1 ∧
    (send (fun _ => Except.error (Err.transport "down")) "tok" 0 [wr0]).writes.all
      (fun w => w.length == 1) = true ∧
    doIntakeOutcome ChanState.closedCh = DoOutcome.panicked :=
  stop_drains_final_batch 50 (fun _ => Except.error (Err.transport "down"))
    "tok" 0 { batch := [wr0], timerArmed := true, armCount := 1 }
    (fun res hres => by cases hres)

/-- C7 counterexample: starting twice from a fresh client does not leave
the client in the state a single Start leaves it in — a second worker is
spawned and the intake channel is replaced. -/
theorem start_twice_not_idempotent_cex :
    clientStart 10 50 (clientStart 10 50
        { batchTimeout := 0, maxBatchSize := 0, workChan := none
          nextChan := 0, workersSpawned := 0 }) ≠
      clientStart 10 50
        { batchTimeout := 0, maxBatchSize := 0, workChan := none
          nextChan := 0, workersSpawned := 0 } ∧
    (clientStart 10 50 (clientStart 10 50
        { batchTimeout := 0, maxBatchSize := 0, workChan := none
          nextChan := 0, workersSpawned := 0 })).workersSpawned = 2 := by
  decide

/-- C7 (amended): the current Start has no once-guard and is not
idempotent: a second Start leaves the defaulted configuration unchanged
but spawns a second worker and replaces the intake channel with a fresh
one, so two Starts perform two initializations. -/
theorem start_twice_effects (dBT dMBS : Nat) (c : ClientLife)
    (h1 : dBT ≠ 0) (h2 : dMBS ≠ 0) :
    (clientStart dBT dMBS (clientStart dBT dMBS c)).batchTimeout =
      (clientStart dBT dMBS c).batchTimeout ∧
    (clientStart dBT dMBS (clientStart dBT dMBS c)).maxBatchSize =
      (clientStart dBT dMBS c).maxBatchSize ∧
    (clientStart dBT dMBS (clientStart dBT dMBS c)).workersSpawned =
      c.workersSpawned + 2 ∧
    (clientStart dBT dMBS (clientStart dBT dMBS c)).workChan ≠
      (clientStart dBT dMBS c).workChan := by
  refine ⟨?_, ?_, rfl, ?_⟩
  · simp only [clientStart]
    split_ifs <;> simp_all
  · simp only [clientStart]
    split_ifs <;> simp_all
  · simp only [clientStart, ne_eq, Option.some.injEq]
    omega

/-- C7 witness: concrete double Start with the default configuration
values; the configuration stabilizes but a second worker is spawned and
the channel identity changes. -/
theorem start_twice_effects_witness :
    (clientStart 10 50 (clientStart 10 50
        { batchTimeout := 0, maxBatchSize := 0, workChan := none
          nextChan := 0, workersSpawned := 0 })).batchTimeout =
      (clientStart 10 50
        { batchTimeout := 0, maxBatchSize := 0, workChan := none
          nextChan := 0, workersSpawned := 0 }).batchTimeout ∧
    (clientStart 10 50 (clientStart 10 50
        { batchTimeout := 0, maxBatchSize := 0, workChan := none
          nextChan := 0, workersSpawned := 0 })).maxBatchSize =
      (clientStart 10 50
        { batchTimeout := 0, maxBatchSize := 0, workChan := none
          nextChan := 0, workersSpawned := 0 }).maxBatchSize ∧
    (clientStart 10 50 (clientStart 10 50
        { batchTimeout := 0, maxBatchSize := 0, workChan := none
          nextChan := 0, workersSpawned := 0 })).workersSpawned = 0 + 2 ∧
    (clientStart 10 50 (clientStart 10 50
        { batchTimeout := 0, maxBatchSize := 0, workChan := none
          nextChan := 0, workersSpawned := 0 })).workChan ≠
      (clientStart 10 50
        { batchTimeout := 0, maxBatchSize := 0, workChan := none
          nextChan := 0, workersSpawned := 0 }).workChan :=
  start_twice_effects 10 50
    { batchTimeout := 0, maxBatchSize := 0, workChan := none
      nextChan := 0, workersSpawned := 0 }
    (by decide) (by decide)

/-- C8 counterexample: the claim also covers Do after the client is
stopped, but there the closed intake makes the channel send panic — Do
does not return the not-started error, and no event reaches the worker. -/
theorem post_stop_do_returns_no_error_cex :
    doIntakeOutcome ChanState.closedCh ≠ DoOutcome.notStartedErr ∧
    doSubmitEvents ChanState.closedCh req0 = [] := by
  decide

/-- C8 (amended): before Start the intake field is nil, so Do returns
the not-started error immediately and synchronously, delivering no event
to the worker: the accumulator, the timer and the dispatch list are
untouched and the transport is never contacted.  After Stop, Do panics
on the closed intake instead of returning that error. -/
theorem do_before_start_no_effect (r : Request) (s : WorkerState)
    (maxBatchSize : Nat) :
    doIntakeOutcome ChanState.unset = DoOutcome.notStartedErr ∧
    doSubmitEvents ChanState.unset r = [] ∧
    workerRun maxBatchSize s (doSubmitEvents ChanState.unset r) =
      { state := s, flushes := [], terminated := false } ∧
    doIntakeOutcome ChanState.closedCh = DoOutcome.panicked :=
  ⟨rfl, rfl, rfl, rfl⟩

/-- C9 counterexample: a successful composite call whose decoded array
is shorter than the batch: `BatchDo` returns it without error with
length 1 for a batch of 2, and the dispatcher's positional indexing
panics, starving the second member. -/
theorem batchdo_length_mismatch_cex :
    BatchDo (fun _ => Except.ok [resp0])
        { accessToken := "", appID := 0, request := [req0, req1] } =
      Except.ok [resp0] ∧
    ([resp0].length ≠ [req0, req1].length) ∧
    (send (fun _ => Except.ok [resp0]) "" 0 [wr0, wr1]).panicked = true ∧
    (send (fun _ => Except.ok [resp0]) "" 0 [wr0, wr1]).writes =
      [[workResponse.ok resp0], []] := by
  refine ⟨rfl, by decide, rfl, rfl⟩

/-- C9 (amended): `BatchDo` returns exactly the decoded array and never
checks its length; when the transport does return one sub-response per
request — the batch endpoint's contract, assumed but not enforced — the
positional index is in bounds for every member and the dispatcher
completes without panic. -/
theorem send_in_bounds_of_full_length (t : Transport) (ac : String)
    (app : Nat) (rrs : List workRequest) (res : List Response)
    (hok : t { accessToken := ac, appID := app
               request := rrs.map (fun r => r.request) } = Except.ok res)
    (hlen : res.length = rrs.length) :
    BatchDo t (send t ac app rrs).composite = Except.ok res ∧
    (send t ac app rrs).panicked = false ∧
    (send t ac app rrs).writes.length = rrs.length := by
  have hc := send_composite t ac app rrs
  have hw := send_writes_of_ok t ac app rrs res hok (le_of_eq hlen.symm)
  refine ⟨?_, hw.2, ?_⟩
  · rw [hc]; exact hok
  · rw [hw.1, ← hlen, List.take_length, List.length_map]

/-- C9 witness: a two-member batch with a transport returning exactly
two sub-responses; no panic and a write per member. -/
theorem send_in_bounds_of_full_length_witness :
    BatchDo (fun _ => Except.ok [resp0, resp1])
        (send (fun _ => Except.ok [resp0, resp1]) "y" 2 [wr0, wr1]).composite =
      Except.ok [resp0, resp1] ∧
    (send (fun _ => Except.ok [resp0, resp1]) "y" 2 [wr0, wr1]).panicked = false ∧
    (send (fun _ => Except.ok [resp0, resp1]) "y" 2 [wr0, wr1]).writes.length = 2 :=
  send_in_bounds_of_full_length (fun _ => Except.ok [resp0, resp1]) "y" 2
    [wr0, wr1] [resp0, resp1] rfl rfl

/-- C10: a closed intake with an empty accumulator still dispatches one
final batch — the empty one — before the worker terminates, and that
dispatch builds a composite batch with zero sub-requests whose `BatchDo`
is exactly one invocation of the transport on it. -/
theorem close_dispatches_empty_batch (maxBatchSize : Nat) (t : Transport)
    (ac : String) (app : Nat) :
    workerRun maxBatchSize workerInit [WorkerEvent.closed] =
      { state := workerInit, flushes := [[]], terminated := true } ∧
    (send t ac app []).composite =
      { accessToken := ac, appID := app, request := [] } ∧
    BatchDo t (send t ac app []).composite =
      t { accessToken := ac, appID := app, request := [] } := by
  refine ⟨rfl, ?_, ?_⟩
  · exact send_composite t ac app []
  · rw [send_composite t ac app []]; rfl

end FBBatch
